import Mathlib

/-!
Verification development for the waterloo-coop-bots repository.

The repository is a browser-automation job scanner with four Python modules:
`main.py` (scan loop, chart-text parsing, result persistence), `job_scraper.py`
(duration and description extraction), `matcher.py` (two-stage LLM resume
matching), and `resume_parser.py` (resume schema validation).

The development below is a shallow embedding: pure Python functions become
Lean functions on `List Char` / `String` / `Rat`; the browser, the LLM API and
the OCR-free chart path are modelled by explicit environment records whose
fields are the values the external calls return, and the effectful scan loop
becomes a trace-producing interpreter over those environments.  Python floats
are embedded as rationals (the numeric claims only involve values that are
exact in both representations).  Python regex searches are embedded as
specialised leftmost-match scanners for the concrete patterns appearing in the
source.
-/

/-! ## Character and string utilities -/

/-- Model of Python `text.replace(chr(10), chr(32))` followed by
case-insensitive matching: every newline becomes a space and every character
is lower-cased (the searched keywords are lower-case and the digit, dot and
percent characters are unaffected, so lower-casing the text is equivalent to
`re.IGNORECASE`). Used by `parse_modal_text` (main.py line 40). -/
def normChars (t : String) : List Char :=
  (t.data.map (fun c => if c = '\n' then ' ' else c)).map Char.toLower

def isDigitCh (c : Char) : Bool := '0' ≤ c && c ≤ '9'

/-- Greedy digit run: the pair of the maximal digit block and the rest. -/
def takeDigits : List Char → List Char × List Char
  | [] => ([], [])
  | c :: rest =>
    if isDigitCh c then
      let p := takeDigits rest
      (c :: p.1, p.2)
    else ([], c :: rest)

/-- Matcher for the regex fragment `(\d+(?:\.\d+)?)%` anchored at the head of
the input, with Python backtracking semantics: the greedy `\d+` takes the
maximal digit run, the optional fractional part is taken when present, and
`%` must follow; shorter digit runs can never succeed because the character
after a shorter run is a digit, not `%`.  Returns the integer and fractional
digit blocks of the captured group. -/
def numPercentAt (s : List Char) : Option (List Char × List Char) :=
  match takeDigits s with
  | ([], _) => none
  | (ds, rest) =>
    match rest with
    | '%' :: _ => some (ds, [])
    | '.' :: r2 =>
      (match takeDigits r2 with
       | ([], _) => none
       | (es, r3) =>
         match r3 with
         | '%' :: _ => some (ds, es)
         | _ => none)
    | _ => none

/-- Lazy `.*?` scan: the earliest position at which `(\d+(?:\.\d+)?)%`
matches.  (After newline replacement the text contains no newline, so the
Python dot can cross every remaining character.) -/
def findNumPercent : List Char → Option (List Char × List Char)
  | [] => none
  | c :: rest =>
    match numPercentAt (c :: rest) with
    | some r => some r
    | none => findNumPercent rest

/-- Literal keyword match at the head of the input; returns the rest. -/
def matchKw : List Char → List Char → Option (List Char)
  | [], s => some s
  | _ :: _, [] => none
  | k :: ks, c :: cs => if k = c then matchKw ks cs else none

/-- First alternative of the keyword alternation matching at this position. -/
def kwAt : List (List Char) → List Char → Option (List Char)
  | [], _ => none
  | k :: ks, s =>
    match matchKw k s with
    | some r => some r
    | none => kwAt ks s

/-- Leftmost-match search for `(?:kw1|kw2).*?(\d+(?:\.\d+)?)%`: scan start
positions left to right; at the first keyword occurrence, lazily scan
forward for the number-percent group.  If no number-percent occurs after the
first keyword occurrence then none occurs after any later one (the later
tail is a suffix), so the whole search fails, matching `re.search`. -/
def searchTermNum (kws : List (List Char)) : List Char → Option (List Char × List Char)
  | [] => none
  | c :: rest =>
    match kwAt kws (c :: rest) with
    | some r => findNumPercent r
    | none => searchTermNum kws rest

def firstKws : List (List Char) := ["first".data, "1st".data]

def secondKws : List (List Char) := ["second".data, "2nd".data]

def digitsToNat (ds : List Char) : Nat :=
  ds.foldl (fun n c => 10 * n + (c.toNat - 48)) 0

/-- Value of the captured decimal numeral, exactly, as a rational (model of
Python `float(...)` on the captured group). -/
def numToRat (ds es : List Char) : ℚ :=
  (digitsToNat ds : ℚ) + (digitsToNat es : ℚ) / ((10 : ℚ) ^ es.length)

/-- Embedding of `parse_modal_text` (main.py lines 33-65): replace newlines
by spaces, search case-insensitively for the first match of
`(?:First|1st).*?(\d+(?:\.\d+)?)%` and of `(?:Second|2nd).*?(\d+(?:\.\d+)?)%`,
default each side to 0.0 when absent, and return
`(total, found_first, found_second)` with `total = found_first + found_second`. -/
def parse_modal_text (text : String) : ℚ × ℚ × ℚ :=
  let cs := normChars text
  let found_first :=
    match searchTermNum firstKws cs with
    | some r => numToRat r.1 r.2
    | none => 0
  let found_second :=
    match searchTermNum secondKws cs with
    | some r => numToRat r.1 r.2
    | none => 0
  (found_first + found_second, found_first, found_second)

/-! ## Duration normalization (job_scraper.py) -/

/-- Python regex whitespace class `\s`, ASCII part. -/
def isSpaceCh (c : Char) : Bool :=
  c = ' ' || c = '\t' || c = '\n' || c = '\r' || c = '\x0b' || c = '\x0c'

/-- Model of `re.sub` applied with pattern `\s+` and replacement a single
space: every maximal whitespace run becomes one space.  The flag carries
whether the previous character was whitespace. -/
def collapseWsAux : Bool → List Char → List Char
  | _, [] => []
  | prev, c :: rest =>
    if isSpaceCh c then
      if prev then collapseWsAux true rest
      else ' ' :: collapseWsAux true rest
    else c :: collapseWsAux false rest

/-- Embedding of `clean_text` (job_scraper.py line 52): collapse whitespace
runs to single spaces, then lower-case. -/
def cleanChars (raw : String) : List Char :=
  (collapseWsAux false raw.data).map Char.toLower

def isPre : List Char → List Char → Bool
  | [], _ => true
  | _ :: _, [] => false
  | a :: as, b :: bs => a = b && isPre as bs

/-- Python substring containment `n in h`. -/
def hasSub (n : List Char) : List Char → Bool
  | [] => n.isEmpty
  | c :: rest => isPre n (c :: rest) || hasSub n rest

/-- Embedding of the normalization logic of `scrape_work_term_duration`
(job_scraper.py lines 50-66), applied to the raw text produced by either
locator strategy: clean the text, then run the substring presence tests in
source order (`8`+`month`, then `4`+`month` with the both-present upgrade,
then `flexible` last). -/
def scrape_work_term_duration_core (raw : String) : String :=
  let ct := cleanChars raw
  let jd0 := "Unknown"
  let jd1 := if hasSub "8".data ct && hasSub "month".data ct then "8 month" else jd0
  let jd2 :=
    if hasSub "4".data ct && hasSub "month".data ct then
      (if jd1 = "8 month" then "4-8 month" else "4 month")
    else jd1
  if hasSub "flexible".data ct then "Flexible" else jd2

/-- Canonical duration enumeration of the specification. -/
inductive DurationCategory where
  | FourMonth
  | EightMonth
  | FourToEightMonth
  | Flexible
  | Unknown
deriving DecidableEq

/-- Mapping between the duration strings produced by the source and the
canonical enumeration of the specification. -/
def durCat (s : String) : DurationCategory :=
  if s = "4 month" then .FourMonth
  else if s = "8 month" then .EightMonth
  else if s = "4-8 month" then .FourToEightMonth
  else if s = "Flexible" then .Flexible
  else .Unknown

/-- Embedding of the duration filter of `scan_current_page` (main.py lines
111-127): the filter only runs when the preference is not `any`; preference
`4` rejects exactly the `8 month` category and preference `8` rejects exactly
the `4 month` category. -/
def durationReject (pref jd : String) : Bool :=
  if pref = "any" then false
  else if pref = "4" then (if jd = "8 month" then true else false)
  else if pref = "8" then (if jd = "4 month" then true else false)
  else false

/-! ## Match scorer (matcher.py) -/

/-- JSON values, as produced by parsing an LLM response. -/
inductive JVal where
  | jnum (n : Int)
  | jstr (s : String)
  | jbool (b : Bool)
  | jarr (xs : List JVal)
  | jobj (fields : List (String × JVal))
  | jnull

/-- Python dict with string keys, in insertion order. -/
abbrev JDict := List (String × JVal)

/-- Python `d[k]` lookup as an option. -/
def jlookup (k : String) : JDict → Option JVal
  | [] => none
  | (k', v) :: rest => if k' = k then some v else jlookup k rest

/-- Python `d[k] = v`: overwrite in place when the key exists, append
otherwise. -/
def dset (k : String) (v : JVal) : JDict → JDict
  | [] => [(k, v)]
  | (k', v') :: rest => if k' = k then (k', v) :: rest else (k', v') :: dset k v rest

/-- Environment of one `analyze_match` run: the outcomes of the two external
LLM calls, which are outside the repository (the spec treats the
text-understanding capability as an external collaborator).  `Except.error`
is a transport/API exception raised by the call; `Except.ok d` is the dict
obtained by `clean_json_response` from the returned content, where an
unparseable response yields the empty dict (matcher.py line 70). -/
structure MatcherEnv where
  stage1 : Except String JDict
  stage2 : Except String JDict

/-- Embedding of `extract_job_keywords` (matcher.py lines 72-93): an API
exception is caught and converted to the empty dict; otherwise the cleaned
response dict is returned. -/
def extract_job_keywords (env : MatcherEnv) : JDict :=
  match env.stage1 with
  | .error _ => []
  | .ok d => d

/-- The zero-score failure dict returned when keyword extraction yields
nothing (matcher.py lines 104-109). -/
def failShape : JDict :=
  [("match_score", .jnum 0), ("is_junior_friendly", .jbool false),
   ("missing_skills", .jarr []), ("reasoning", .jstr "Failed to extract job keywords.")]

/-- Embedding of `analyze_match` (matcher.py lines 95-149).  The Boolean in
the result records whether the second-stage LLM call was issued.  Empty
keyword dict (Python falsy test on line 103) short-circuits; a second-stage
exception is converted to a zero-score dict; a parsed second-stage dict
missing the `match_score` key is patched with score 0 and a diagnostic
reasoning string (lines 136-138). -/
def analyze_match (env : MatcherEnv) : JDict × Bool :=
  let jk := extract_job_keywords env
  if jk.isEmpty then (failShape, false)
  else
    match env.stage2 with
    | .error e =>
      ([("match_score", .jnum 0), ("is_junior_friendly", .jbool false),
        ("missing_skills", .jarr []),
        ("reasoning", .jstr ("Analysis failed: " ++ e))], true)
    | .ok result =>
      (if (jlookup "match_score" result).isNone then
         dset "reasoning" (.jstr "JSON parsing complete but schema was invalid.")
           (dset "match_score" (.jnum 0) result)
       else result, true)

/-! ## Resume schema validation (resume_parser.py) -/

structure PersonalInfo where
  name : String
  email : String
  phone : String
  location : String
  linkedin : Option String
  github : Option String
  website : Option String

structure Experience where
  title : String
  company : String
  years : String
  location : Option String
  description : List String

structure Education where
  institution : String
  degree : String
  years : String

structure ResumeData where
  personalInfo : PersonalInfo
  summary : String
  workExperience : List Experience
  education : List Education
  skills : List String

/-- Coercion of a JSON value to a required `str` field: pydantic raises on a
missing or non-string value. -/
def getStrJ : JVal → Except String String
  | .jstr s => .ok s
  | _ => .error "string expected"

/-- Coercion to an `Optional[str]` field: the field is nullable but, having
no declared default, still required to be present in the input. -/
def getOptStrJ : JVal → Except String (Option String)
  | .jstr s => .ok (some s)
  | .jnull => .ok none
  | _ => .error "string or null expected"

/-- Required field of string type: absent means a validation error. -/
def reqStrField (k : String) (d : JDict) : Except String String :=
  match jlookup k d with
  | some v => getStrJ v
  | none => .error ("Field required: " ++ k)

/-- Required field of `Optional[str]` type: absent means a validation error. -/
def reqOptStrField (k : String) (d : JDict) : Except String (Option String) :=
  match jlookup k d with
  | some v => getOptStrJ v
  | none => .error ("Field required: " ++ k)

/-- Validation of a `List[str]` value. -/
def strList : List JVal → Except String (List String)
  | [] => .ok []
  | v :: rest =>
    match getStrJ v, strList rest with
    | .ok s, .ok ss => .ok (s :: ss)
    | .error e, _ => .error e
    | .ok _, .error e => .error e

/-- Validation of a typed list value, element by element. -/
def validateList {α : Type} (f : JVal → Except String α) : List JVal → Except String (List α)
  | [] => .ok []
  | v :: rest =>
    match f v, validateList f rest with
    | .ok a, .ok as => .ok (a :: as)
    | .error e, _ => .error e
    | .ok _, .error e => .error e

/-- Validation of the `PersonalInfo` model (resume_parser.py lines 12-19):
every declared field is required; only the `Optional[str]` fields accept
null. -/
def validatePersonalInfo (v : JVal) : Except String PersonalInfo :=
  match v with
  | .jobj d =>
    (match reqStrField "name" d, reqStrField "email" d, reqStrField "phone" d,
           reqStrField "location" d, reqOptStrField "linkedin" d,
           reqOptStrField "github" d, reqOptStrField "website" d with
     | .ok name, .ok email, .ok phone, .ok location, .ok linkedin, .ok github, .ok website =>
       .ok ⟨name, email, phone, location, linkedin, github, website⟩
     | .error e, _, _, _, _, _, _ => .error e
     | _, .error e, _, _, _, _, _ => .error e
     | _, _, .error e, _, _, _, _ => .error e
     | _, _, _, .error e, _, _, _ => .error e
     | _, _, _, _, .error e, _, _ => .error e
     | _, _, _, _, _, .error e, _ => .error e
     | _, _, _, _, _, _, .error e => .error e)
  | _ => .error "object expected"

/-- Validation of the `Experience` model (resume_parser.py lines 21-26). -/
def validateExperience (v : JVal) : Except String Experience :=
  match v with
  | .jobj d =>
    (match reqStrField "title" d, reqStrField "company" d, reqStrField "years" d,
           reqOptStrField "location" d,
           (match jlookup "description" d with
            | some (.jarr xs) => strList xs
            | some _ => .error "list expected"
            | none => .error "Field required: description") with
     | .ok title, .ok company, .ok years, .ok location, .ok description =>
       .ok ⟨title, company, years, location, description⟩
     | .error e, _, _, _, _ => .error e
     | _, .error e, _, _, _ => .error e
     | _, _, .error e, _, _ => .error e
     | _, _, _, .error e, _ => .error e
     | _, _, _, _, .error e => .error e)
  | _ => .error "object expected"

/-- Validation of the `Education` model (resume_parser.py lines 28-31). -/
def validateEducation (v : JVal) : Except String Education :=
  match v with
  | .jobj d =>
    (match reqStrField "institution" d, reqStrField "degree" d, reqStrField "years" d with
     | .ok institution, .ok degree, .ok years => .ok ⟨institution, degree, years⟩
     | .error e, _, _ => .error e
     | _, .error e, _ => .error e
     | _, _, .error e => .error e)
  | _ => .error "object expected"

/-- Embedding of `ResumeData.model_validate` (resume_parser.py lines 33-39
and 145): validation of the declared schema.  No field declares a default,
so every declared field is required; a missing required field is a
validation error, matching pydantic semantics for annotation-only fields. -/
def validateResumeData (v : JVal) : Except String ResumeData :=
  match v with
  | .jobj d =>
    match (match jlookup "personalInfo" d with
           | some x => validatePersonalInfo x
           | none => .error "Field required: personalInfo") with
    | .error e => .error e
    | .ok pinfo =>
      match reqStrField "summary" d with
      | .error e => .error e
      | .ok summary =>
        match (match jlookup "workExperience" d with
               | some (.jarr xs) => validateList validateExperience xs
               | some _ => .error "list expected"
               | none => .error "Field required: workExperience") with
        | .error e => .error e
        | .ok we =>
          match (match jlookup "education" d with
                 | some (.jarr xs) => validateList validateEducation xs
                 | some _ => .error "list expected"
                 | none => .error "Field required: education") with
          | .error e => .error e
          | .ok ed =>
            match (match jlookup "skills" d with
                   | some (.jarr xs) => strList xs
                   | some _ => .error "list expected"
                   | none => .error "Field required: skills") with
            | .error e => .error e
            | .ok sk => .ok ⟨pinfo, summary, we, ed, sk⟩
  | _ => .error "object expected"

def exceptIsOk {ε α : Type} : Except ε α → Bool
  | .ok _ => true
  | .error _ => false

/-! ## Job description extraction (job_scraper.py) -/

/-- Embedding of the content-container selection of `scrape_job_description`
(job_scraper.py lines 105-134).  `paneText` is the inner text of the first
visible structured content container when one exists; `fullText` is the
whole detail view text.  The structured text is used only when its length
exceeds 50 characters (line 125); otherwise the function falls back to the
entire view text. -/
def scrape_job_description (paneText : Option String) (fullText : String) : String :=
  match paneText with
  | some t => if t.length > 50 then t else fullText
  | none => fullText

/-! ## Decimal rendering of scores -/

/-- Integer part of a nonnegative rational (used only on nonnegative
values, where truncation and floor agree). -/
def ratIntPart (q : ℚ) : Int := q.num / (q.den : Int)

/-- Decimal digits of the fractional part of a rational in `[0, 1)`, fuelled;
every value parsed from a percent literal has a finite expansion well within
the fuel. -/
def fracDigitsAux : Nat → ℚ → List Char
  | 0, _ => []
  | fuel + 1, q =>
    if q = 0 then []
    else
      let d := ratIntPart (q * 10)
      Char.ofNat (48 + d.toNat) :: fracDigitsAux fuel (q * 10 - (d : ℚ))

/-- Rendering of a nonnegative rational the way Python prints the
corresponding float inside an f-string: integer part, a dot, and the decimal
digits of the fractional part, with a single `0` digit when the value is
integral (Python prints `45.0` for `45.0`). -/
def pyFloatRepr (q : ℚ) : String :=
  let ip := ratIntPart q
  let ds := fracDigitsAux 40 (q - (ip : ℚ))
  if ds.isEmpty then toString ip ++ ".0"
  else toString ip ++ "." ++ String.mk ds

/-! ## Listing scan loop (main.py, scan_current_page) -/

/-- Environment of one iteration of the per-listing loop body (main.py lines
81-233): the values returned by the browser and the external calls for this
listing.  `title` is the stripped link text when readable (`none` models the
bare-except fallback to the placeholder).  `clickOk` and `modalVisible`
model the two navigation failure points; `jobDuration` is the string
returned by `scrape_work_term_duration` (a total function); `jobDesc` is the
string returned by `scrape_job_description` (a total function, possibly
empty); `matchScore` and `matchReasoning` are the values read from the
`analyze_match` result dict (with their Python defaults applied);
`ratingsTabOk` and `chartHeaderOk` model the two bounded waits on the
ratings tab; `chartText` is the modal text grabbed for chart parsing;
`closeBtnVisible` and `closeOk` drive the cleanup block. -/
structure ListingEnv where
  title : Option String
  clickOk : Bool
  modalVisible : Bool
  jobDuration : String
  jobDesc : String
  matchScore : Int
  matchReasoning : String
  ratingsTabOk : Bool
  chartHeaderOk : Bool
  chartText : String
  closeBtnVisible : Bool
  closeOk : Bool

/-- Observable actions of the loop body, tagged with the listing index.  The
`snapshot` and `ocr` constructors exist so that the OCR protocol described by
the specification is statable against the trace; the interpreter below,
which follows the source, never emits them. -/
inductive Event where
  | click (i : Nat)
  | clickError (i : Nat)
  | modalTimeout (i : Nat)
  | modalOpened (i : Nat)
  | durationChecked (i : Nat) (jd : String)
  | rejectDuration (i : Nat)
  | descScraped (i : Nat)
  | matchAnalyzed (i : Nat) (score : Int)
  | rejectLowScore (i : Nat)
  | tabTimeout (i : Nat)
  | tabSwitched (i : Nat)
  | chartTimeout (i : Nat)
  | snapshot (i : Nat)
  | ocr (i : Nat)
  | parseChart (i : Nat) (total first second : ℚ)
  | save (i : Nat) (line : String)
  | scoreTooLow (i : Nat)
  | closingEntered (i : Nat)
  | closeClick (i : Nat)
  | closeEscape (i : Nat)
  | closeHidden (i : Nat)
  | closeForcedEscape (i : Nat)
deriving DecidableEq

def eventIdx : Event → Nat
  | .click i => i
  | .clickError i => i
  | .modalTimeout i => i
  | .modalOpened i => i
  | .durationChecked i _ => i
  | .rejectDuration i => i
  | .descScraped i => i
  | .matchAnalyzed i _ => i
  | .rejectLowScore i => i
  | .tabTimeout i => i
  | .tabSwitched i => i
  | .chartTimeout i => i
  | .snapshot i => i
  | .ocr i => i
  | .parseChart i _ _ _ => i
  | .save i _ => i
  | .scoreTooLow i => i
  | .closingEntered i => i
  | .closeClick i => i
  | .closeEscape i => i
  | .closeHidden i => i
  | .closeForcedEscape i => i

/-- Events belonging to the cleanup block (main.py lines 215-233). -/
def isCloseEvt : Event → Bool
  | .closingEntered _ => true
  | .closeClick _ => true
  | .closeEscape _ => true
  | .closeHidden _ => true
  | .closeForcedEscape _ => true
  | _ => false

/-- Events belonging to the OCR protocol of the specification. -/
def isOcrEvt : Event → Bool
  | .snapshot _ => true
  | .ocr _ => true
  | _ => false

/-- Job title used for this listing (main.py lines 88-91): the link text, or
the placeholder when reading it raised. -/
def jobTitle (i : Nat) (env : ListingEnv) : String :=
  match env.title with
  | some t => t
  | none => "Job #" ++ toString (i + 1)

/-- The `match_details` string (main.py lines 130-149): stays `N/A` unless a
resume is loaded and a nonempty description was scraped, in which case the
match result is formatted. -/
def matchDetails (rl : Bool) (env : ListingEnv) : String :=
  if rl then
    if env.jobDesc != "" then
      "Match: " ++ toString env.matchScore ++ "% | " ++ env.matchReasoning
    else "N/A"
  else "N/A"

/-- The low-match-score rejection condition (main.py lines 152-154): only
reachable when a resume is loaded and a nonempty description was scraped. -/
def lowScoreReject (rl : Bool) (env : ListingEnv) : Bool :=
  rl && env.jobDesc != "" && decide (env.matchScore < 50)

/-- Events of the resume-matching section (main.py lines 130-161). -/
def matchEvents (rl : Bool) (i : Nat) (env : ListingEnv) : List Event :=
  if rl then
    if env.jobDesc != "" then [.descScraped i, .matchAnalyzed i env.matchScore]
    else [.descScraped i]
  else []

/-- The output line built on acceptance (main.py lines 195-200). -/
def resultLine (rl : Bool) (i : Nat) (env : ListingEnv) (total first second : ℚ) : String :=
  jobTitle i env ++ " | Score: " ++ pyFloatRepr total ++ "% | First: " ++ pyFloatRepr first ++
    "% | Second: " ++ pyFloatRepr second ++ "% | Duration: " ++ env.jobDuration ++
    (if matchDetails rl env != "N/A" then " | " ++ matchDetails rl env else "")

/-- Trace of the per-listing try body (main.py lines 84-213), before the
cleanup block.  Every failure exit in the source is an exception caught by
one of the handlers at lines 204, 207, 209 or 212, all inside the loop body,
so every branch here simply ends the body. -/
def bodyEvents (pref : String) (rl : Bool) (i : Nat) (env : ListingEnv) : List Event :=
  if !env.clickOk then [.click i, .clickError i]
  else
    .click i ::
    (if !env.modalVisible then [.modalTimeout i]
     else
       .modalOpened i :: .durationChecked i env.jobDuration ::
       (if durationReject pref env.jobDuration then [.rejectDuration i]
        else
          matchEvents rl i env ++
          (if lowScoreReject rl env then [.rejectLowScore i]
           else if !env.ratingsTabOk then [.tabTimeout i]
           else
             .tabSwitched i ::
             (if !env.chartHeaderOk then [.chartTimeout i]
              else
                .parseChart i (parse_modal_text env.chartText).1
                  (parse_modal_text env.chartText).2.1 (parse_modal_text env.chartText).2.2 ::
                (if (parse_modal_text env.chartText).1 > 10 then
                   [.save i (resultLine rl i env (parse_modal_text env.chartText).1
                      (parse_modal_text env.chartText).2.1 (parse_modal_text env.chartText).2.2)]
                 else [.scoreTooLow i])))))

/-- Lines appended to the results file by this listing (main.py lines
193-200): at most one, exactly when the body reaches chart parsing and the
total exceeds 10. -/
def savedLines (pref : String) (rl : Bool) (i : Nat) (env : ListingEnv) : List String :=
  if !env.clickOk then []
  else if !env.modalVisible then []
  else if durationReject pref env.jobDuration then []
  else if lowScoreReject rl env then []
  else if !env.ratingsTabOk then []
  else if !env.chartHeaderOk then []
  else if (parse_modal_text env.chartText).1 > 10 then
    [resultLine rl i env (parse_modal_text env.chartText).1
       (parse_modal_text env.chartText).2.1 (parse_modal_text env.chartText).2.2]
  else []

/-- Trace of the cleanup block (main.py lines 215-233): click the close
control when visible, else send Escape; then wait for the modal to be
hidden, and on any failure fall back to a forced Escape. -/
def closeEvents (i : Nat) (env : ListingEnv) : List Event :=
  .closingEntered i ::
  ((if env.closeBtnVisible then [.closeClick i] else [.closeEscape i]) ++
   (if env.closeOk then [.closeHidden i] else [.closeForcedEscape i]))

/-- Full trace of one loop iteration: body then unconditional cleanup. -/
def runEvents (pref : String) (rl : Bool) (i : Nat) (env : ListingEnv) : List Event :=
  bodyEvents pref rl i env ++ closeEvents i env

/-- Trace of the whole scan loop from listing index `k` on. -/
def scanPageAux (pref : String) (rl : Bool) : Nat → List ListingEnv → List Event
  | _, [] => []
  | k, env :: rest => runEvents pref rl k env ++ scanPageAux pref rl (k + 1) rest

/-- Trace of `scan_current_page` over the listings of one results page. -/
def scanPage (pref : String) (rl : Bool) (envs : List ListingEnv) : List Event :=
  scanPageAux pref rl 0 envs

/-- Lines appended over the whole scan, in order. -/
def scanSavedAux (pref : String) (rl : Bool) : Nat → List ListingEnv → List String
  | _, [] => []
  | k, env :: rest => savedLines pref rl k env ++ scanSavedAux pref rl (k + 1) rest

/-- Results file contents after a scan: the file is only ever opened in
append mode ("a", which creates it when absent), so the prior contents stay
in place and the new lines follow. -/
def scanFile (init : List String) (pref : String) (rl : Bool) (envs : List ListingEnv) : List String :=
  init ++ scanSavedAux pref rl 0 envs

/-- Concrete environment whose chart text bears no percent match, used as
the explicit input of the chart-path counterexample and witnesses. -/
def envNoMatch : ListingEnv :=
  { title := some "Sample Job"
    clickOk := true
    modalVisible := true
    jobDuration := "Unknown"
    jobDesc := ""
    matchScore := 0
    matchReasoning := ""
    ratingsTabOk := true
    chartHeaderOk := true
    chartText := "Hires by Student Work Term Number"
    closeBtnVisible := true
    closeOk := true }

/-- Concrete environment whose chart parses to a total of exactly 10, used
to witness the strictness of the acceptance threshold. -/
def envTotalTen : ListingEnv :=
  { envNoMatch with chartText := "First: 5%, Second: 5%" }

/-! ## Helper lemmas -/

theorem jlookup_dset_self (k : String) (v : JVal) (d : JDict) :
    jlookup k (dset k v d) = some v := by
  induction d with
  | nil => simp [dset, jlookup]
  | cons p rest ih =>
    obtain ⟨k', v'⟩ := p
    by_cases h : k' = k
    · subst h; simp [dset, jlookup]
    · simp [dset, jlookup, h, ih]

theorem jlookup_dset_of_ne (k k2 : String) (h : k2 ≠ k) (v : JVal) (d : JDict) :
    jlookup k (dset k2 v d) = jlookup k d := by
  induction d with
  | nil => simp [dset, jlookup, h]
  | cons p rest ih =>
    obtain ⟨k', v'⟩ := p
    by_cases hk : k' = k2
    · subst hk; simp [dset, jlookup, h]
    · simp [dset, jlookup, hk, ih]

theorem bodyEvents_props (pref : String) (rl : Bool) (i : Nat) (env : ListingEnv) :
    ∀ e ∈ bodyEvents pref rl i env,
      eventIdx e = i ∧ isCloseEvt e = false ∧ isOcrEvt e = false := by
  have h : (bodyEvents pref rl i env).all
      (fun e => decide (eventIdx e = i) && !isCloseEvt e && !isOcrEvt e) = true := by
    unfold bodyEvents matchEvents
    repeat' split
    all_goals simp [List.all_cons, List.all_append, eventIdx, isCloseEvt, isOcrEvt]
  intro e he
  have h2 := List.all_eq_true.mp h e he
  simp only [Bool.and_eq_true, decide_eq_true_eq, Bool.not_eq_true'] at h2
  exact ⟨h2.1.1, h2.1.2, h2.2⟩

theorem closeEvents_props (i : Nat) (env : ListingEnv) :
    ∀ e ∈ closeEvents i env, eventIdx e = i ∧ isCloseEvt e = true ∧ isOcrEvt e = false := by
  have h : (closeEvents i env).all
      (fun e => decide (eventIdx e = i) && isCloseEvt e && !isOcrEvt e) = true := by
    unfold closeEvents
    repeat' split
    all_goals simp [List.all_cons, List.all_append, eventIdx, isCloseEvt, isOcrEvt]
  intro e he
  have h2 := List.all_eq_true.mp h e he
  simp only [Bool.and_eq_true, decide_eq_true_eq, Bool.not_eq_true'] at h2
  exact ⟨h2.1.1, h2.1.2, h2.2⟩

theorem closeEvents_count (i j : Nat) (env : ListingEnv) :
    (closeEvents i env).count (Event.closingEntered j) = if j = i then 1 else 0 := by
  unfold closeEvents
  rcases eq_or_ne j i with rfl | hj <;> repeat' split
  all_goals simp_all [List.count_cons, List.count_nil]

theorem bodyEvents_count (pref : String) (rl : Bool) (i j : Nat) (env : ListingEnv) :
    (bodyEvents pref rl i env).count (Event.closingEntered j) = 0 := by
  rw [List.count_eq_zero]
  intro hmem
  have h := (bodyEvents_props pref rl i env _ hmem).2.1
  simp [isCloseEvt] at h

theorem runEvents_count (pref : String) (rl : Bool) (i j : Nat) (env : ListingEnv) :
    (runEvents pref rl i env).count (Event.closingEntered j) = if j = i then 1 else 0 := by
  rw [runEvents, List.count_append, bodyEvents_count, closeEvents_count, Nat.zero_add]

theorem runEvents_idx (pref : String) (rl : Bool) (i : Nat) (env : ListingEnv) :
    ∀ e ∈ runEvents pref rl i env, eventIdx e = i := by
  intro e he
  rcases List.mem_append.mp he with hb | hc
  · exact (bodyEvents_props pref rl i env e hb).1
  · exact (closeEvents_props i env e hc).1

theorem runEvents_no_ocr (pref : String) (rl : Bool) (i : Nat) (env : ListingEnv) :
    ∀ e ∈ runEvents pref rl i env, isOcrEvt e = false := by
  intro e he
  rcases List.mem_append.mp he with hb | hc
  · exact (bodyEvents_props pref rl i env e hb).2.2
  · exact (closeEvents_props i env e hc).2.2

theorem scanPageAux_count (pref : String) (rl : Bool) :
    ∀ (envs : List ListingEnv) (k i : Nat),
      (scanPageAux pref rl k envs).count (Event.closingEntered i)
        = if k ≤ i ∧ i < k + envs.length then 1 else 0 := by
  intro envs
  induction envs with
  | nil =>
    intro k i
    rw [scanPageAux, List.count_nil, List.length_nil, if_neg (by omega)]
  | cons env rest ih =>
    intro k i
    rw [scanPageAux, List.count_append, runEvents_count, ih (k + 1) i, List.length_cons]
    rcases eq_or_ne i k with rfl | h
    · rw [if_pos rfl, if_neg (by omega), if_pos (by omega)]
    · rw [if_neg h]
      split_ifs <;> omega

theorem pairwise_const_idx {l : List Event} {k : Nat} (h : ∀ e ∈ l, eventIdx e = k) :
    l.Pairwise (fun a b => eventIdx a ≤ eventIdx b) := by
  induction l with
  | nil => exact List.Pairwise.nil
  | cons a t ih =>
    refine List.Pairwise.cons (fun b hb => ?_) (ih fun e he => h e (List.mem_cons_of_mem a he))
    rw [h a (List.mem_cons_self a t), h b (List.mem_cons_of_mem a hb)]

theorem scanPageAux_idx_ge (pref : String) (rl : Bool) :
    ∀ (envs : List ListingEnv) (k : Nat), ∀ e ∈ scanPageAux pref rl k envs, k ≤ eventIdx e := by
  intro envs
  induction envs with
  | nil => intro k e he; rw [scanPageAux] at he; cases he
  | cons env rest ih =>
    intro k e he
    rw [scanPageAux] at he
    rcases List.mem_append.mp he with hb | hc
    · rw [runEvents_idx pref rl k env e hb]
    · exact Nat.le_of_succ_le (ih (k + 1) e hc)

theorem scanPageAux_pairwise (pref : String) (rl : Bool) :
    ∀ (envs : List ListingEnv) (k : Nat),
      (scanPageAux pref rl k envs).Pairwise (fun a b => eventIdx a ≤ eventIdx b) := by
  intro envs
  induction envs with
  | nil => intro k; rw [scanPageAux]; exact List.Pairwise.nil
  | cons env rest ih =>
    intro k
    rw [scanPageAux]
    refine List.pairwise_append.mpr ⟨pairwise_const_idx (runEvents_idx pref rl k env), ih (k + 1), ?_⟩
    intro a ha b hb
    rw [runEvents_idx pref rl k env a ha]
    exact Nat.le_of_succ_le (scanPageAux_idx_ge pref rl rest (k + 1) b hb)

/-! ## Claim theorems -/

/-- C2: `parse_modal_text` is a pure total function; after replacing
newlines by spaces it takes only the first case-insensitive match of
`(First|1st).*?(number)%` as the first-term percent and only the first match
of `(Second|2nd).*?(number)%` as the second-term percent (the embedded
`searchTermNum` is exactly that leftmost-match search), each side defaults
to 0.0 when no match exists, and the returned total is first + second; on
`First: 10%, Second: 5%` it returns `(15, 10, 5)` and on `no data here` it
returns total 0. -/
theorem c2_parse_modal_text_spec :
    (∀ t : String, (parse_modal_text t).1 = (parse_modal_text t).2.1 + (parse_modal_text t).2.2)
    ∧ parse_modal_text "First: 10%, Second: 5%" = (15, 10, 5)
    ∧ parse_modal_text "no data here" = (0, 0, 0)
    ∧ (∀ t : String, searchTermNum firstKws (normChars t) = none → (parse_modal_text t).2.1 = 0)
    ∧ (∀ t : String, searchTermNum secondKws (normChars t) = none → (parse_modal_text t).2.2 = 0) := by
  refine ⟨fun t => rfl, by with_unfolding_all rfl, by with_unfolding_all rfl, ?_, ?_⟩
  · intro t h
    simp [parse_modal_text, h]
  · intro t h
    simp [parse_modal_text, h]

/-- Witness for C2 at the concrete input `no data here`: the first-term
search has no match there and the theorem then forces the 0.0 default. -/
theorem c2_witness :
    searchTermNum firstKws (normChars "no data here") = none
    ∧ (parse_modal_text "no data here").2.1 = 0 :=
  ⟨by with_unfolding_all rfl,
   c2_parse_modal_text_spec.2.2.2.1 "no data here" (by with_unfolding_all rfl)⟩

/-- C3: duration normalization is a deterministic function of the
lower-cased, whitespace-collapsed text using substring presence tests:
`4` and `month` without `8` (and without the overriding `flexible`) gives
FourMonth; `4` and `8` with `month` (without `flexible`) gives
FourToEightMonth; `flexible` gives Flexible regardless of the other tokens;
none of the tokens gives Unknown. -/
theorem c3_duration_normalization (raw : String) :
    (hasSub "4".data (cleanChars raw) = true → hasSub "month".data (cleanChars raw) = true →
     hasSub "8".data (cleanChars raw) = false → hasSub "flexible".data (cleanChars raw) = false →
     durCat (scrape_work_term_duration_core raw) = DurationCategory.FourMonth)
    ∧ (hasSub "4".data (cleanChars raw) = true → hasSub "8".data (cleanChars raw) = true →
       hasSub "month".data (cleanChars raw) = true →
       hasSub "flexible".data (cleanChars raw) = false →
       durCat (scrape_work_term_duration_core raw) = DurationCategory.FourToEightMonth)
    ∧ (hasSub "flexible".data (cleanChars raw) = true →
       durCat (scrape_work_term_duration_core raw) = DurationCategory.Flexible)
    ∧ (hasSub "4".data (cleanChars raw) = false → hasSub "month".data (cleanChars raw) = false →
       hasSub "8".data (cleanChars raw) = false → hasSub "flexible".data (cleanChars raw) = false →
       durCat (scrape_work_term_duration_core raw) = DurationCategory.Unknown) := by
  refine ⟨?_, ?_, ?_, ?_⟩
  · intro h1 h2 h3 h4
    have hs : scrape_work_term_duration_core raw = "4 month" := by
      simp [scrape_work_term_duration_core, h1, h2, h3, h4]
    rw [hs]; decide
  · intro h1 h2 h3 h4
    have hs : scrape_work_term_duration_core raw = "4-8 month" := by
      simp [scrape_work_term_duration_core, h1, h2, h3, h4]
    rw [hs]; decide
  · intro h1
    have hs : scrape_work_term_duration_core raw = "Flexible" := by
      simp [scrape_work_term_duration_core, h1]
    rw [hs]; decide
  · intro h1 h2 h3 h4
    have hs : scrape_work_term_duration_core raw = "Unknown" := by
      simp [scrape_work_term_duration_core, h1, h2, h3, h4]
    rw [hs]; decide

/-- Witness for C3: the four clauses applied at concrete raw texts. -/
theorem c3_witness :
    durCat (scrape_work_term_duration_core "Work Term Duration: 4 month work term")
      = DurationCategory.FourMonth
    ∧ durCat (scrape_work_term_duration_core "4 or 8 month") = DurationCategory.FourToEightMonth
    ∧ durCat (scrape_work_term_duration_core "Flexible 4 month") = DurationCategory.Flexible
    ∧ durCat (scrape_work_term_duration_core "to be determined") = DurationCategory.Unknown :=
  ⟨(c3_duration_normalization "Work Term Duration: 4 month work term").1
      (by decide) (by decide) (by decide) (by decide),
   (c3_duration_normalization "4 or 8 month").2.1 (by decide) (by decide) (by decide) (by decide),
   (c3_duration_normalization "Flexible 4 month").2.2.1 (by decide),
   (c3_duration_normalization "to be determined").2.2.2
      (by decide) (by decide) (by decide) (by decide)⟩

/-- C4: over the three caller-supplied preferences and the five duration
categories, the duration check rejects exactly when the preference is `4`
and the category is the eight-month one, or the preference is `8` and the
category is the four-month one; in particular the mixed, flexible and
unknown categories are always accepted and preference `any` accepts
everything. -/
theorem c4_duration_filter (pref jd : String)
    (hp : pref = "4" ∨ pref = "8" ∨ pref = "any")
    (hd : jd = "4 month" ∨ jd = "8 month" ∨ jd = "4-8 month" ∨ jd = "Flexible" ∨ jd = "Unknown") :
    durationReject pref jd = true ↔
      ((pref = "4" ∧ jd = "8 month") ∨ (pref = "8" ∧ jd = "4 month")) := by
  rcases hp with h | h | h <;> subst h <;>
    rcases hd with g | g | g | g | g <;> subst g <;> decide

/-- Witness for C4 at the concrete pair preference `4`, duration `8 month`. -/
theorem c4_witness :
    durationReject "4" "8 month" = true ↔
      ((("4" : String) = "4" ∧ ("8 month" : String) = "8 month")
        ∨ (("4" : String) = "8" ∧ ("8 month" : String) = "4 month")) :=
  c4_duration_filter "4" "8 month" (Or.inl rfl) (Or.inr (Or.inl rfl))

/-- C5: `analyze_match` is total over its environment (the model of the two
external LLM calls): an empty keyword dict (the result of any unparseable
first-stage response or any first-stage API error) returns exactly the
documented zero-score shape without invoking the second stage; a
second-stage API error is converted to a zero-score result; a parsed
second-stage dict without the score field is patched to score 0 with the
diagnostic reasoning string. -/
theorem c5_analyze_match_defaults (env : MatcherEnv) :
    ((extract_job_keywords env).isEmpty = true → analyze_match env = (failShape, false))
    ∧ (∀ msg, env.stage1 = Except.error msg → analyze_match env = (failShape, false))
    ∧ (∀ msg, env.stage2 = Except.error msg → (extract_job_keywords env).isEmpty = false →
        jlookup "match_score" (analyze_match env).1 = some (JVal.jnum 0)
        ∧ (analyze_match env).1 =
            [("match_score", JVal.jnum 0), ("is_junior_friendly", JVal.jbool false),
             ("missing_skills", JVal.jarr []),
             ("reasoning", JVal.jstr ("Analysis failed: " ++ msg))]
        ∧ (analyze_match env).2 = true)
    ∧ (∀ d, env.stage2 = Except.ok d → jlookup "match_score" d = none →
        (extract_job_keywords env).isEmpty = false →
        jlookup "match_score" (analyze_match env).1 = some (JVal.jnum 0)
        ∧ jlookup "reasoning" (analyze_match env).1 =
            some (JVal.jstr "JSON parsing complete but schema was invalid.")) := by
  refine ⟨?_, ?_, ?_, ?_⟩
  · intro hempty
    simp [analyze_match, hempty]
  · intro msg h
    simp [analyze_match, extract_job_keywords, h]
  · intro msg h hne
    refine ⟨?_, ?_, ?_⟩ <;> simp [analyze_match, hne, h, jlookup]
  · intro d h hnone hne
    have hres : (analyze_match env).1 =
        dset "reasoning" (JVal.jstr "JSON parsing complete but schema was invalid.")
          (dset "match_score" (JVal.jnum 0) d) := by
      simp [analyze_match, hne, h, hnone]
    rw [hres]
    constructor
    · rw [jlookup_dset_of_ne "match_score" "reasoning" (by decide), jlookup_dset_self]
    · rw [jlookup_dset_self]

/-- Witness for C5 at three concrete environments: unparseable first stage,
second-stage API error, and second-stage response without the score field. -/
theorem c5_witness :
    analyze_match ⟨Except.ok [], Except.ok []⟩ = (failShape, false)
    ∧ jlookup "match_score"
        (analyze_match ⟨Except.ok [("required_skills", JVal.jarr [])],
           Except.error "timeout"⟩).1 = some (JVal.jnum 0)
    ∧ jlookup "reasoning"
        (analyze_match ⟨Except.ok [("required_skills", JVal.jarr [])],
           Except.ok [("reasoning", JVal.jstr "fine")]⟩).1
        = some (JVal.jstr "JSON parsing complete but schema was invalid.") :=
  ⟨(c5_analyze_match_defaults ⟨Except.ok [], Except.ok []⟩).1 rfl,
   ((c5_analyze_match_defaults ⟨Except.ok [("required_skills", JVal.jarr [])],
       Except.error "timeout"⟩).2.2.1 "timeout" rfl rfl).1,
   ((c5_analyze_match_defaults ⟨Except.ok [("required_skills", JVal.jarr [])],
       Except.ok [("reasoning", JVal.jstr "fine")]⟩).2.2.2
      [("reasoning", JVal.jstr "fine")] rfl (by with_unfolding_all rfl) rfl).2⟩

/-- C7 counterexample: a structured content-container text of 30 characters
exceeds the claimed 10-character threshold, yet the function discards it and
falls back to the whole-view text, because the threshold in the code is 50. -/
theorem c7_counterexample :
    ("abcdefghijklmnopqrstuvwxyzABCD" : String).length > 10
    ∧ scrape_job_description (some "abcdefghijklmnopqrstuvwxyzABCD") "FULL VIEW TEXT"
        = "FULL VIEW TEXT"
    ∧ ("FULL VIEW TEXT" : String) ≠ "abcdefghijklmnopqrstuvwxyzABCD" :=
  ⟨by decide, by decide, by decide⟩

/-- C7 amended: the structured content-container result is used as the
description exactly when its length exceeds 50 characters; at or below 50
characters (and when no container is found) the whole-view text is used. -/
theorem c7_amended_threshold (pane full : String) :
    scrape_job_description none full = full
    ∧ (pane.length > 50 → scrape_job_description (some pane) full = pane)
    ∧ (pane.length ≤ 50 → scrape_job_description (some pane) full = full) := by
  refine ⟨rfl, fun h => ?_, fun h => ?_⟩
  · simp [scrape_job_description, h]
  · simp only [scrape_job_description]
    rw [if_neg (by omega)]

/-- Witness for C7 at a concrete short structured text. -/
theorem c7_witness : scrape_job_description (some "short text") "WHOLE VIEW" = "WHOLE VIEW" :=
  (c7_amended_threshold "short text" "WHOLE VIEW").2.2 (by decide)

/-- C8 counterexample: validating the empty JSON object (every field
absent) fails instead of succeeding with defaulted empty strings and lists,
because no field of the schema declares a default. -/
theorem c8_counterexample : exceptIsOk (validateResumeData (JVal.jobj [])) = false := by decide

theorem reqStrField_ok_present {k : String} {d : JDict} {s : String}
    (h : reqStrField k d = Except.ok s) : (jlookup k d).isSome = true := by
  rcases hx : jlookup k d with _ | v
  · simp [reqStrField, hx] at h
  · simp [hx]

theorem reqOptStrField_ok_present {k : String} {d : JDict} {s : Option String}
    (h : reqOptStrField k d = Except.ok s) : (jlookup k d).isSome = true := by
  rcases hx : jlookup k d with _ | v
  · simp [reqOptStrField, hx] at h
  · simp [hx]

/-- Inversion of `validatePersonalInfo`: when validation of a personal-info
object succeeds, every one of its seven declared fields was present. -/
theorem validatePersonalInfo_ok_present (p : JDict)
    (h : exceptIsOk (validatePersonalInfo (JVal.jobj p)) = true) :
    (jlookup "name" p).isSome = true
    ∧ (jlookup "email" p).isSome = true
    ∧ (jlookup "phone" p).isSome = true
    ∧ (jlookup "location" p).isSome = true
    ∧ (jlookup "linkedin" p).isSome = true
    ∧ (jlookup "github" p).isSome = true
    ∧ (jlookup "website" p).isSome = true := by
  rcases h1 : reqStrField "name" p with e | v1
  · simp [validatePersonalInfo, h1, exceptIsOk] at h
  rcases h2 : reqStrField "email" p with e | v2
  · simp [validatePersonalInfo, h1, h2, exceptIsOk] at h
  rcases h3 : reqStrField "phone" p with e | v3
  · simp [validatePersonalInfo, h1, h2, h3, exceptIsOk] at h
  rcases h4 : reqStrField "location" p with e | v4
  · simp [validatePersonalInfo, h1, h2, h3, h4, exceptIsOk] at h
  rcases h5 : reqOptStrField "linkedin" p with e | v5
  · simp [validatePersonalInfo, h1, h2, h3, h4, h5, exceptIsOk] at h
  rcases h6 : reqOptStrField "github" p with e | v6
  · simp [validatePersonalInfo, h1, h2, h3, h4, h5, h6, exceptIsOk] at h
  rcases h7 : reqOptStrField "website" p with e | v7
  · simp [validatePersonalInfo, h1, h2, h3, h4, h5, h6, h7, exceptIsOk] at h
  exact ⟨reqStrField_ok_present h1, reqStrField_ok_present h2, reqStrField_ok_present h3,
    reqStrField_ok_present h4, reqOptStrField_ok_present h5, reqOptStrField_ok_present h6,
    reqOptStrField_ok_present h7⟩

/-- Inversion of `validateResumeData`: when validation of a resume object
succeeds, every one of the five declared top-level fields was present. -/
theorem validateResumeData_ok_present (d : JDict)
    (h : exceptIsOk (validateResumeData (JVal.jobj d)) = true) :
    (jlookup "personalInfo" d).isSome = true
    ∧ (jlookup "summary" d).isSome = true
    ∧ (jlookup "workExperience" d).isSome = true
    ∧ (jlookup "education" d).isSome = true
    ∧ (jlookup "skills" d).isSome = true := by
  rcases hq : jlookup "personalInfo" d with _ | x
  · simp [validateResumeData, hq, exceptIsOk] at h
  rcases hv : validatePersonalInfo x with e | pinfo
  · simp [validateResumeData, hq, hv, exceptIsOk] at h
  rcases hs : jlookup "summary" d with _ | sv
  · simp [validateResumeData, hq, hv, reqStrField, hs, exceptIsOk] at h
  rcases hg : getStrJ sv with e | s
  · simp [validateResumeData, hq, hv, reqStrField, hs, hg, exceptIsOk] at h
  rcases hw : jlookup "workExperience" d with _ | wv
  · simp [validateResumeData, hq, hv, reqStrField, hs, hg, hw, exceptIsOk] at h
  cases wv with
  | jnum n => simp [validateResumeData, hq, hv, reqStrField, hs, hg, hw, exceptIsOk] at h
  | jstr s2 => simp [validateResumeData, hq, hv, reqStrField, hs, hg, hw, exceptIsOk] at h
  | jbool b => simp [validateResumeData, hq, hv, reqStrField, hs, hg, hw, exceptIsOk] at h
  | jobj flds => simp [validateResumeData, hq, hv, reqStrField, hs, hg, hw, exceptIsOk] at h
  | jnull => simp [validateResumeData, hq, hv, reqStrField, hs, hg, hw, exceptIsOk] at h
  | jarr xs =>
    rcases hvl : validateList validateExperience xs with e | we
    · simp [validateResumeData, hq, hv, reqStrField, hs, hg, hw, hvl, exceptIsOk] at h
    rcases hed : jlookup "education" d with _ | ev
    · simp [validateResumeData, hq, hv, reqStrField, hs, hg, hw, hvl, hed, exceptIsOk] at h
    cases ev with
    | jnum n =>
      simp [validateResumeData, hq, hv, reqStrField, hs, hg, hw, hvl, hed, exceptIsOk] at h
    | jstr s2 =>
      simp [validateResumeData, hq, hv, reqStrField, hs, hg, hw, hvl, hed, exceptIsOk] at h
    | jbool b =>
      simp [validateResumeData, hq, hv, reqStrField, hs, hg, hw, hvl, hed, exceptIsOk] at h
    | jobj flds =>
      simp [validateResumeData, hq, hv, reqStrField, hs, hg, hw, hvl, hed, exceptIsOk] at h
    | jnull =>
      simp [validateResumeData, hq, hv, reqStrField, hs, hg, hw, hvl, hed, exceptIsOk] at h
    | jarr ys =>
      rcases hvl2 : validateList validateEducation ys with e | ed
      · simp [validateResumeData, hq, hv, reqStrField, hs, hg, hw, hvl, hed, hvl2,
          exceptIsOk] at h
      rcases hsk : jlookup "skills" d with _ | kv
      · simp [validateResumeData, hq, hv, reqStrField, hs, hg, hw, hvl, hed, hvl2, hsk,
          exceptIsOk] at h
      simp [hq, hs, hw, hed, hsk]

/-- C8 amended: no field of the schema declares a default, so validation is
strict about required fields: a parsed resume JSON in which any of the five
declared top-level fields (the object field personalInfo, the string field
summary, or the list fields workExperience, education, skills) is absent
fails validation rather than defaulting, and likewise when the present
personalInfo object is missing any of its seven declared fields; tolerance
for missing data is delegated to the prompt rules (resume_parser.py lines
102-104), not to the schema. -/
theorem c8_amended_strict (d p : JDict) (k k2 : String)
    (hk : k ∈ ["personalInfo", "summary", "workExperience", "education", "skills"])
    (hk2 : k2 ∈ ["name", "email", "phone", "location", "linkedin", "github", "website"]) :
    ((jlookup k d).isNone = true → exceptIsOk (validateResumeData (JVal.jobj d)) = false)
    ∧ (jlookup "personalInfo" d = some (JVal.jobj p) → (jlookup k2 p).isNone = true →
        exceptIsOk (validateResumeData (JVal.jobj d)) = false) := by
  constructor
  · intro h
    have hnone : jlookup k d = none := Option.isNone_iff_eq_none.mp h
    rcases hres : exceptIsOk (validateResumeData (JVal.jobj d)) with _ | _
    · rfl
    · have hp := validateResumeData_ok_present d hres
      fin_cases hk <;> (rw [hnone] at hp; simp at hp)
  · intro hpi h2
    have hnone2 : jlookup k2 p = none := Option.isNone_iff_eq_none.mp h2
    rcases hv : validatePersonalInfo (JVal.jobj p) with e | pinfo
    · simp [validateResumeData, hpi, hv, exceptIsOk]
    · have hok : exceptIsOk (validatePersonalInfo (JVal.jobj p)) = true := by
        rw [hv]; rfl
      have hp7 := validatePersonalInfo_ok_present p hok
      fin_cases hk2 <;> (rw [hnone2] at hp7; simp at hp7)

/-- Witness for C8: a missing top-level list field (workExperience) and a
missing nested string field (email inside a present personalInfo, with all
five top-level fields present) each make validation fail. -/
theorem c8_witness :
    exceptIsOk (validateResumeData (JVal.jobj [("summary", JVal.jstr "s")])) = false
    ∧ exceptIsOk (validateResumeData (JVal.jobj
        [("personalInfo", JVal.jobj [("name", JVal.jstr "A")]),
         ("summary", JVal.jstr "s"), ("workExperience", JVal.jarr []),
         ("education", JVal.jarr []), ("skills", JVal.jarr [])])) = false :=
  ⟨(c8_amended_strict [("summary", JVal.jstr "s")] [] "workExperience" "email"
      (by decide) (by decide)).1 (by decide),
   (c8_amended_strict
      [("personalInfo", JVal.jobj [("name", JVal.jstr "A")]),
       ("summary", JVal.jstr "s"), ("workExperience", JVal.jarr []),
       ("education", JVal.jarr []), ("skills", JVal.jarr [])]
      [("name", JVal.jstr "A")] "summary" "email"
      (by decide) (by decide)).2 (by with_unfolding_all rfl) (by decide)⟩

theorem match_details_suffix (rl : Bool) (env : ListingEnv) :
    (if matchDetails rl env != "N/A" then " | " ++ matchDetails rl env else "") =
    (if rl = true ∧ env.jobDesc ≠ "" then
       " | " ++ ("Match: " ++ toString env.matchScore ++ "% | " ++ env.matchReasoning)
     else "") := by
  cases rl with
  | false => simp [matchDetails]
  | true =>
    by_cases hd : env.jobDesc = ""
    · simp [matchDetails, hd]
    · have hne : ("Match: " ++ toString env.matchScore ++ "% | " ++ env.matchReasoning) ≠ "N/A" := by
        intro hc
        have hlen := congrArg String.length hc
        rw [String.length_append, String.length_append, String.length_append] at hlen
        have h1 : ("Match: " : String).length = 7 := rfl
        have h3 : ("N/A" : String).length = 3 := rfl
        omega
      simp [matchDetails, hd, hne]

/-- C1: over every environment (that is, every path out of the per-listing
body: normal completion, duration-mismatch rejection, low-match-score
rejection, modal/tab/chart timeouts, and the modelled click exception), the
cleanup block is entered exactly once per processed listing index; the trace
is ordered by listing index, so the close sequence of index `i` precedes
everything of index `i + 1`; the per-listing trace is the body followed by
the close sequence (close-control click when visible, else the Escape key,
then the bounded hidden-wait with forced-Escape fallback); and nothing in
the body belongs to the cleanup block. -/
theorem c1_close_exactly_once (pref : String) (rl : Bool) (envs : List ListingEnv)
    (i : Nat) (h : i < envs.length) :
    (scanPage pref rl envs).count (Event.closingEntered i) = 1
    ∧ (scanPage pref rl envs).Pairwise (fun a b => eventIdx a ≤ eventIdx b)
    ∧ runEvents pref rl i (envs.get ⟨i, h⟩) =
        bodyEvents pref rl i (envs.get ⟨i, h⟩) ++
          Event.closingEntered i ::
            ((if (envs.get ⟨i, h⟩).closeBtnVisible then [Event.closeClick i]
              else [Event.closeEscape i]) ++
             (if (envs.get ⟨i, h⟩).closeOk then [Event.closeHidden i]
              else [Event.closeForcedEscape i]))
    ∧ (∀ e ∈ bodyEvents pref rl i (envs.get ⟨i, h⟩), isCloseEvt e = false) := by
  refine ⟨?_, scanPageAux_pairwise pref rl envs 0, rfl,
    fun e he => (bodyEvents_props pref rl i _ e he).2.1⟩
  rw [scanPage, scanPageAux_count pref rl envs 0 i, if_pos ⟨Nat.zero_le i, by omega⟩]

/-- Witness for C1 on a concrete one-listing page. -/
theorem c1_witness :
    (scanPage "any" false [envNoMatch]).count (Event.closingEntered 0) = 1 :=
  (c1_close_exactly_once "any" false [envNoMatch] 0 (by decide)).1

/-- C6 counterexample: at a concrete listing whose ratings text bears no
percent match for First/Second, the trace contains no snapshot and no
image-to-text step (the code has no OCR path), contradicting the claimed
capture-and-recognize protocol; the chart parse simply yields zeros. -/
theorem c6_counterexample :
    searchTermNum firstKws (normChars envNoMatch.chartText) = none
    ∧ searchTermNum secondKws (normChars envNoMatch.chartText) = none
    ∧ Event.snapshot 0 ∉ runEvents "any" false 0 envNoMatch
    ∧ Event.ocr 0 ∉ runEvents "any" false 0 envNoMatch
    ∧ Event.parseChart 0 0 0 0 ∈ runEvents "any" false 0 envNoMatch := by
  have ht : runEvents "any" false 0 envNoMatch =
      [.click 0, .modalOpened 0, .durationChecked 0 "Unknown", .tabSwitched 0,
       .parseChart 0 0 0 0, .scoreTooLow 0, .closingEntered 0, .closeClick 0, .closeHidden 0] := by
    with_unfolding_all rfl
  refine ⟨by with_unfolding_all rfl, by with_unfolding_all rfl, ?_, ?_, ?_⟩
  · rw [ht]; intro hmem; simp at hmem
  · rw [ht]; intro hmem; simp at hmem
  · rw [ht]; simp

/-- C6 amended: the chart reader is DOM-text only.  No snapshot or
image-to-text step ever appears in any trace; when the grabbed ratings text
bears no percent match for First/Second on a listing that reaches chart
parsing, both terms parse as 0, the listing is not persisted, and the body
still completes into the close sequence rather than erroring; when a
percent-bearing DOM match exists, its parsed value is used directly. -/
theorem c6_chart_dom_only (pref : String) (rl : Bool) (i : Nat) (env : ListingEnv) :
    (∀ j, Event.snapshot j ∉ runEvents pref rl i env ∧ Event.ocr j ∉ runEvents pref rl i env)
    ∧ (env.clickOk = true → env.modalVisible = true →
       durationReject pref env.jobDuration = false →
       lowScoreReject rl env = false →
       env.ratingsTabOk = true → env.chartHeaderOk = true →
       searchTermNum firstKws (normChars env.chartText) = none →
       searchTermNum secondKws (normChars env.chartText) = none →
       Event.parseChart i 0 0 0 ∈ runEvents pref rl i env
       ∧ savedLines pref rl i env = []) := by
  constructor
  · intro j
    constructor <;> intro hmem <;>
      (have hx := runEvents_no_ocr pref rl i env _ hmem; simp [isOcrEvt] at hx)
  · intro h1 h2 h3 h4 h5 h6 h7 h8
    have hp0 : parse_modal_text env.chartText = (0, 0, 0) := by
      simp [parse_modal_text, h7, h8]
    have h10 : ¬ ((0 : ℚ) > 10) := by norm_num
    constructor
    · simp [runEvents, bodyEvents, h1, h2, h3, h4, h5, h6, hp0]
    · simp [savedLines, h1, h2, h3, h4, h5, h6, hp0, h10]

/-- Witness for C6 applying the amended theorem at the concrete no-match
listing. -/
theorem c6_witness :
    Event.parseChart 0 0 0 0 ∈ runEvents "any" false 0 envNoMatch
    ∧ savedLines "any" false 0 envNoMatch = [] :=
  (c6_chart_dom_only "any" false 0 envNoMatch).2 rfl rfl rfl rfl rfl rfl
    (by with_unfolding_all rfl) (by with_unfolding_all rfl)

/-- C9: the scan only ever appends to the results file (the prior contents
stay as a prefix, and opening in append mode creates the file when absent,
modelled by the empty initial line list); each accepted posting contributes
exactly one line of the documented form, and the Match suffix is present
exactly when a resume-match result was produced for that listing (resume
loaded and a nonempty description scraped). -/
theorem c9_result_sink (pref : String) (rl : Bool) (init : List String)
    (envs : List ListingEnv) (i : Nat) (env : ListingEnv) :
    (∃ tail, scanFile init pref rl envs = init ++ tail)
    ∧ (savedLines pref rl i env = []
       ∨ savedLines pref rl i env =
          [jobTitle i env ++ " | Score: " ++ pyFloatRepr (parse_modal_text env.chartText).1 ++
            "% | First: " ++ pyFloatRepr (parse_modal_text env.chartText).2.1 ++
            "% | Second: " ++ pyFloatRepr (parse_modal_text env.chartText).2.2 ++
            "% | Duration: " ++ env.jobDuration ++
            (if rl = true ∧ env.jobDesc ≠ "" then
               " | " ++ ("Match: " ++ toString env.matchScore ++ "% | " ++ env.matchReasoning)
             else "")]) := by
  refine ⟨⟨scanSavedAux pref rl 0 envs, rfl⟩, ?_⟩
  have hres : resultLine rl i env (parse_modal_text env.chartText).1
      (parse_modal_text env.chartText).2.1 (parse_modal_text env.chartText).2.2 =
      jobTitle i env ++ " | Score: " ++ pyFloatRepr (parse_modal_text env.chartText).1 ++
        "% | First: " ++ pyFloatRepr (parse_modal_text env.chartText).2.1 ++
        "% | Second: " ++ pyFloatRepr (parse_modal_text env.chartText).2.2 ++
        "% | Duration: " ++ env.jobDuration ++
        (if rl = true ∧ env.jobDesc ≠ "" then
           " | " ++ ("Match: " ++ toString env.matchScore ++ "% | " ++ env.matchReasoning)
         else "") := by
    unfold resultLine
    rw [match_details_suffix]
  rw [← hres]
  unfold savedLines
  repeat' split
  all_goals first
    | exact Or.inl rfl
    | exact Or.inr rfl

/-- C10: a listing that reaches chart parsing is persisted exactly when its
parsed total is strictly greater than 10; a total of 10 or below is not
persisted. -/
theorem c10_accept_threshold (pref : String) (rl : Bool) (i : Nat) (env : ListingEnv)
    (h1 : env.clickOk = true) (h2 : env.modalVisible = true)
    (h3 : durationReject pref env.jobDuration = false)
    (h4 : lowScoreReject rl env = false)
    (h5 : env.ratingsTabOk = true) (h6 : env.chartHeaderOk = true) :
    (savedLines pref rl i env ≠ [] ↔ (parse_modal_text env.chartText).1 > 10)
    ∧ ((parse_modal_text env.chartText).1 ≤ 10 → savedLines pref rl i env = []) := by
  have hsl : savedLines pref rl i env =
      if (parse_modal_text env.chartText).1 > 10 then
        [resultLine rl i env (parse_modal_text env.chartText).1
           (parse_modal_text env.chartText).2.1 (parse_modal_text env.chartText).2.2]
      else [] := by
    simp [savedLines, h1, h2, h3, h4, h5, h6]
  constructor
  · rw [hsl]
    by_cases hgt : (parse_modal_text env.chartText).1 > 10
    · simp [hgt]
    · simp [hgt]
  · intro hle
    rw [hsl, if_neg (not_lt.mpr hle)]

/-- Witness for C10 at the concrete boundary input with total exactly 10:
the threshold is strict, so nothing is persisted. -/
theorem c10_witness :
    (savedLines "any" false 0 envTotalTen ≠ [] ↔ (parse_modal_text envTotalTen.chartText).1 > 10)
    ∧ savedLines "any" false 0 envTotalTen = [] :=
  ⟨(c10_accept_threshold "any" false 0 envTotalTen rfl rfl rfl rfl rfl rfl).1,
   (c10_accept_threshold "any" false 0 envTotalTen rfl rfl rfl rfl rfl rfl).2
     (by
       have hq : (parse_modal_text envTotalTen.chartText).1 = 10 := by with_unfolding_all rfl
       rw [hq])⟩
